import Mathlib

/-!
Shallow embedding of the gerege-map spatial registry and geocoding edge
functions (supabase/functions/geocode, reverse-geocode, batch-geocode,
nearby-search, the geofences function, and the SQL RPCs nearby_search,
spatial_clusters, geofence_check, geofence_entries), together with
theorems settling the specification claims.

Numbers are modelled as exact rationals; external effects (the Nominatim
provider, the database insert, the PostGIS geodesic distance and coverage
predicates) are parameters of the embedded operations.
-/

namespace GeregeMap

/-- JavaScript truthiness of an optional string field: `undefined` and the
empty string are falsy, every other string is truthy. -/
def jsTruthy : Option String → Bool
  | none => false
  | some s => s ≠ ""

/-- Rounding to two decimals, as both JS `parseFloat(x.toFixed(2))` /
`Math.round(x*100)/100` and Postgres `round(x::numeric, 2)` behave on the
non-negative values arising here (round half up). -/
def round2 (x : ℚ) : ℚ := (⌊100 * x + 1 / 2⌋ : ℚ) / 100

/-- Address components returned by the Nominatim provider
(`NominatimResult["address"]` in geocode/index.ts, reverse-geocode/index.ts
and batch-geocode/index.ts); every field is optional. -/
structure AddressComponents where
  house_number : Option String := none
  road : Option String := none
  city : Option String := none
  state : Option String := none
  postcode : Option String := none
  country : Option String := none
  country_code : Option String := none
  deriving DecidableEq, Repr

/-- A coordinate pair (latitude, longitude), both rationals. -/
structure Coord where
  lat : ℚ
  lon : ℚ
  deriving DecidableEq, Repr

/-- The standardized address object built by `buildStandardized` in
batch-geocode/index.ts and inline in geocode/index.ts and
reverse-geocode/index.ts. -/
structure StandardizedAddress where
  house_number : Option String
  road : Option String
  city : Option String
  state : Option String
  postcode : Option String
  country : Option String
  country_code : Option String
  formatted : String
  deriving DecidableEq, Repr

/-- `buildStandardized` from batch-geocode/index.ts (the `??` null
coalescing keeps the optional fields as-is in this model). -/
def buildStandardized (address : AddressComponents) (formatted : String) :
    StandardizedAddress :=
  { house_number := address.house_number
    road := address.road
    city := address.city
    state := address.state
    postcode := address.postcode
    country := address.country
    country_code := address.country_code
    formatted := formatted }

/-- `computeConfidence` from batch-geocode/index.ts: the six component
fields, `filter(Boolean).length`, divided by the list length, rounded via
`parseFloat((…).toFixed(2))`. -/
def computeConfidence (address : AddressComponents) : ℚ :=
  let fields := [address.house_number, address.road, address.city,
    address.state, address.postcode, address.country]
  let filled := (fields.filter jsTruthy).length
  round2 ((filled : ℚ) / (fields.length : ℚ))

/-- The inline confidence computation of geocode/index.ts (lines 81-91),
transcribed separately from `computeConfidence`. -/
def confidenceScoreGeocode (address : AddressComponents) : ℚ :=
  let fields := [address.house_number, address.road, address.city,
    address.state, address.postcode, address.country]
  let filled := (fields.filter jsTruthy).length
  round2 ((filled : ℚ) / (fields.length : ℚ))

/-- The inline confidence computation of reverse-geocode/index.ts
(lines 84-93), transcribed separately. -/
def confidenceScoreReverse (address : AddressComponents) : ℚ :=
  let fields := [address.house_number, address.road, address.city,
    address.state, address.postcode, address.country]
  let filled := (fields.filter jsTruthy).length
  round2 ((filled : ℚ) / (fields.length : ℚ))

/-- The count of non-empty fields among house_number, road, city, state,
postcode, country, as the spec words it (an absent field is not
non-empty). -/
def nonEmptyFieldCount (address : AddressComponents) : ℕ :=
  ([address.house_number, address.road, address.city, address.state,
    address.postcode, address.country].filter jsTruthy).length

/-! ## Batch geocode (supabase/functions/batch-geocode/index.ts) -/

/-- `MAX_BATCH_SIZE` from batch-geocode/index.ts. -/
def MAX_BATCH_SIZE : ℕ := 50

/-- One element of the `addresses` array of a batch request. The array is
typed `string[]` but arrives as arbitrary JSON, so an element is either a
string or some non-string JSON value (the code tests
`typeof address !== "string"`). -/
inductive AddrInput where
  | str (s : String)
  | nonString
  deriving DecidableEq, Repr

/-- One provider result, as parsed from the Nominatim JSON (`lat`/`lon`
already number-parsed). -/
structure NominatimResult where
  lat : ℚ
  lon : ℚ
  display_name : String
  address : AddressComponents
  deriving DecidableEq, Repr

/-- Outcome of one `fetch` of the Nominatim search URL: a 2xx response
with a parsed result list, a non-2xx response (`!geoRes.ok`), or a thrown
exception (network failure / malformed JSON). -/
inductive FetchOutcome where
  | ok (results : List NominatimResult)
  | httpError
  | thrown
  deriving DecidableEq, Repr

/-- Per-item status in the batch results (`ResultItem["status"]`). -/
inductive ItemStatus where
  | success
  | not_found
  | error
  deriving DecidableEq, Repr

/-- The `data` payload attached to a successful batch item. -/
structure SuccessData where
  standardized_address : StandardizedAddress
  lat : ℚ
  lon : ℚ
  confidence_score : ℚ
  deriving DecidableEq, Repr

/-- `ResultItem` from batch-geocode/index.ts. -/
structure ResultItem where
  address : AddrInput
  status : ItemStatus
  data : Option SuccessData := none
  errMsg : Option String := none
  deriving DecidableEq, Repr

/-- `GeocodedRow` from batch-geocode/index.ts: the row pushed onto
`rowsToInsert` (the `SRID=4326;POINT(lon lat)` string is modelled by the
coordinate pair). -/
structure GeocodedRow where
  raw_address : String
  standardized_address : StandardizedAddress
  lat : ℚ
  lon : ℚ
  source : String
  confidence_score : ℚ
  created_by : Option String
  deriving DecidableEq, Repr

/-- JS `String.prototype.trim`: strip leading and trailing whitespace
(written structurally so it evaluates in the kernel). -/
def jsTrim (s : String) : String :=
  String.mk
    (((s.toList.dropWhile Char.isWhitespace).reverse.dropWhile
      Char.isWhitespace).reverse)

/-- Processing of a single address inside the batch loop (lines 113-172
of batch-geocode/index.ts): the validity check, the fetch outcome
dispatch, and on success the pushed result item together with its
`rowsToInsert` row. -/
def processItem (created_by : Option String) (source : Option String)
    (a : AddrInput) (f : FetchOutcome) : ResultItem × Option GeocodedRow :=
  match a with
  | .nonString =>
    ({ address := a, status := .error, errMsg := some "Invalid address string" }, none)
  | .str s =>
    if jsTrim s = "" then
      ({ address := a, status := .error, errMsg := some "Invalid address string" }, none)
    else
      match f with
      | .httpError =>
        ({ address := a, status := .error,
           errMsg := some "Geocoding service request failed" }, none)
      | .thrown =>
        ({ address := a, status := .error,
           errMsg := some "Unexpected geocoding failure" }, none)
      | .ok [] =>
        ({ address := a, status := .not_found }, none)
      | .ok (top :: _) =>
        let standardized := buildStandardized top.address top.display_name
        let confidence := computeConfidence top.address
        ({ address := a, status := .success,
           data := some { standardized_address := standardized, lat := top.lat,
                          lon := top.lon, confidence_score := confidence } },
         some { raw_address := s, standardized_address := standardized,
                lat := top.lat, lon := top.lon,
                source := source.getD "nominatim_batch",
                confidence_score := confidence, created_by := created_by })

/-- The sequential geocoding loop: one `ResultItem` per address, and the
accumulated `rowsToInsert`. The index `i` threads the position in the
original array (the provider outcome of address `i` is `fetch i`; the
rate-limit sleep between calls does not affect values). -/
def geocodeLoop (created_by : Option String) (source : Option String)
    (fetch : ℕ → FetchOutcome) : ℕ → List AddrInput →
    List ResultItem × List GeocodedRow
  | _, [] => ([], [])
  | i, a :: rest =>
    let p := processItem created_by source a (fetch i)
    let r := geocodeLoop created_by source fetch (i + 1) rest
    (p.1 :: r.1, p.2.elim r.2 (· :: r.2))

/-- The batch summary object (lines 197-203 of batch-geocode/index.ts). -/
structure Summary where
  total : ℕ
  succeeded : ℕ
  not_found : ℕ
  failed : ℕ
  inserted : ℕ
  deriving DecidableEq, Repr

/-- The three response shapes of the batch endpoint: a 400 validation
rejection, a 500 storage-failure response carrying the computed per-item
results, and a 200 response with summary and results. -/
inductive BatchResponse where
  | badRequest (msg : String)
  | storageFailure (msg : String) (results : List ResultItem)
  | ok (summary : Summary) (results : List ResultItem)
  deriving DecidableEq, Repr

/-- The batch-geocode handler: input validation, the sequential loop, the
single bulk insert of all accumulated rows (its success is the external
parameter `insertOk`), and the summary. -/
def batchHandler (inputs : List AddrInput) (fetch : ℕ → FetchOutcome)
    (created_by : Option String) (source : Option String)
    (insertOk : Bool) : BatchResponse :=
  if inputs = [] then
    .badRequest "addresses must be a non-empty array of strings"
  else if MAX_BATCH_SIZE < inputs.length then
    .badRequest "Batch size exceeds maximum of 50"
  else
    let r := geocodeLoop created_by source fetch 0 inputs
    if r.2 ≠ [] ∧ insertOk = false then
      .storageFailure "Geocoding succeeded but database insert failed" r.1
    else
      .ok { total := inputs.length
            succeeded := r.1.countP (·.status == .success)
            not_found := r.1.countP (·.status == .not_found)
            failed := r.1.countP (·.status == .error)
            inserted := if r.2 ≠ [] then r.2.length else 0 } r.1

/-! ## The geo_registry table and the nearby_search RPC
(migrations 20260214000001/20260214000002, nearby-search/index.ts) -/

/-- A row of the `geo_registry` table; the table is modelled as a list
of rows. -/
structure GeoRecord where
  id : ℕ
  raw_address : String
  standardized_address : StandardizedAddress
  coordinates : Coord
  source : String
  confidence_score : ℚ
  created_at : ℕ
  deriving DecidableEq, Repr

/-- Ordered insertion for the stable sort implementing SQL
`order by … asc`: `a` is placed before the first element it compares
`le` to, hence after every earlier tie. -/
def insOrd (le : α → α → Bool) (a : α) : List α → List α
  | [] => [a]
  | b :: l => if le a b then a :: b :: l else b :: insOrd le a l

/-- Stable insertion sort by the boolean relation `le`. -/
def sortOrd (le : α → α → Bool) : List α → List α
  | [] => []
  | b :: l => insOrd le b (sortOrd le l)

/-- One deterministic refinement of the `nearby_search` SQL function
(20260214000002_nearby_search_rpc.sql): filter the registry to rows
within `radius_m` of the centre under the geodesic distance `d`
(`st_dwithin`), pair each with its distance (`st_distance`), sort
ascending by distance, `limit max_results`. A negative SQL `LIMIT` is an
error. SQL `order by` specifies no order among rows with equal
`distance_m`; this function resolves that choice with a stable sort of
the row list, and `IsNearbyRows` below is the authority for what
orderings the program may actually produce. -/
def nearby_search (d : Coord → Coord → ℚ) (registry : List GeoRecord)
    (lat lon : ℚ) (radius_m : ℚ) (max_results : ℤ) :
    Except String (List (GeoRecord × ℚ)) :=
  if max_results < 0 then .error "LIMIT must not be negative"
  else
    let center : Coord := { lat := lat, lon := lon }
    let within := registry.filter (fun g => d g.coordinates center ≤ radius_m)
    let paired := within.map (fun g => (g, d g.coordinates center))
    .ok ((sortOrd (fun a b => a.2 ≤ b.2) paired).take max_results.toNat)

/-- A nearby-search request body after JSON parsing, with the source
defaults `radius_m = 1000` and `max_results = 50` already applied. -/
structure NearbyRequest where
  lat : ℚ
  lon : ℚ
  radius_m : ℚ := 1000
  max_results : ℤ := 50
  deriving DecidableEq, Repr

/-- The nearby-search edge function (nearby-search/index.ts): coordinate
range check, radius ceiling check, then the RPC with `max_results`
clamped via `Math.min(max_results, 100)`, and the per-row rounding of
`distance_m` to two decimals. -/
def nearbyHandler (d : Coord → Coord → ℚ) (registry : List GeoRecord)
    (req : NearbyRequest) : Except String (List (GeoRecord × ℚ)) :=
  if req.lat < -90 ∨ 90 < req.lat ∨ req.lon < -180 ∨ 180 < req.lon then
    .error "Coordinates out of range"
  else if req.radius_m ≤ 0 ∨ 50000 < req.radius_m then
    .error "radius_m must be between 1 and 50000 meters"
  else
    match nearby_search d registry req.lat req.lon req.radius_m
        (min req.max_results 100) with
    | .error e => .error e
    | .ok rows => .ok (rows.map (fun p => (p.1, round2 p.2)))

/-- The set of row lists the `nearby_search` SQL function may return:
`order by distance_m asc limit max_results` constrains the result to be
a `max_results`-prefix of some distance-sorted permutation of the
`st_dwithin`-filtered rows — Postgres guarantees no particular order
among rows with equal `distance_m`. A negative `LIMIT` is an error, so
an admissible result also requires `0 ≤ max_results`. -/
def IsNearbyRows (d : Coord → Coord → ℚ) (registry : List GeoRecord)
    (lat lon radius_m : ℚ) (max_results : ℤ)
    (rows : List (GeoRecord × ℚ)) : Prop :=
  0 ≤ max_results ∧
  ∃ sorted : List (GeoRecord × ℚ),
    List.Perm sorted
      ((registry.filter (fun g =>
        decide (d g.coordinates { lat := lat, lon := lon } ≤ radius_m))).map
        (fun g => (g, d g.coordinates { lat := lat, lon := lon }))) ∧
    sorted.Pairwise (fun a b => a.2 ≤ b.2) ∧
    rows = sorted.take max_results.toNat

/-- The nearby-search edge function as a relation between a request and
the responses the program may produce: validations as in
nearby-search/index.ts, the RPC called with `max_results` clamped via
`Math.min(max_results, 100)` returning any admissible row list, and the
per-row rounding of `distance_m` to two decimals. -/
def NearbyHandlerRel (d : Coord → Coord → ℚ) (registry : List GeoRecord)
    (req : NearbyRequest) (out : List (GeoRecord × ℚ)) : Prop :=
  ¬(req.lat < -90 ∨ 90 < req.lat ∨ req.lon < -180 ∨ 180 < req.lon) ∧
  ¬(req.radius_m ≤ 0 ∨ 50000 < req.radius_m) ∧
  ∃ rows, IsNearbyRows d registry req.lat req.lon req.radius_m
    (min req.max_results 100) rows ∧
    out = rows.map (fun p => (p.1, round2 p.2))

/-! ## The spatial_clusters RPC
(20260214000003_spatial_clustering_rpc.sql), whose clustering is PostGIS
`ST_ClusterDBSCAN(geom, eps, minpoints)`: a geometry joins a cluster when
it is a core geometry (within `eps` of at least `minpoints` inputs,
itself included) or a border geometry (within `eps` of a core geometry);
all other geometries get a NULL cluster id, and the RPC keeps only rows
with `cid is not null`. -/

/-- Squared planar distance in degree space, matching the geometry-typed
distance `ST_ClusterDBSCAN` uses on `coordinates::geometry` (x = lon,
y = lat). Comparing squares against `eps²` is exact. -/
def distSqDeg (a b : Coord) : ℚ :=
  (a.lon - b.lon) ^ 2 + (a.lat - b.lat) ^ 2

/-- Whether two points are within `eps` degrees of each other. -/
def nearDeg (eps : ℚ) (a b : Coord) : Bool :=
  distSqDeg a b ≤ eps ^ 2

/-- Core geometry test: at least `minPts` of the input points (itself
included) lie within `eps`. -/
def isCore (pts : List GeoRecord) (eps : ℚ) (minPts : ℕ)
    (p : GeoRecord) : Bool :=
  minPts ≤ pts.countP (fun q => nearDeg eps p.coordinates q.coordinates)

/-- One step of density-reachability closure: keep the points of `pts`
that are already in `s` or within `eps` of a core point of `s`. -/
def expand (pts : List GeoRecord) (eps : ℚ) (minPts : ℕ)
    (s : List GeoRecord) : List GeoRecord :=
  pts.filter (fun q => decide (q ∈ s) ||
    s.any (fun p => isCore pts eps minPts p &&
      nearDeg eps p.coordinates q.coordinates))

/-- The density-connected cluster grown from `c`: the closure is reached
after at most `pts.length` expansion steps. -/
def clusterOf (pts : List GeoRecord) (eps : ℚ) (minPts : ℕ)
    (c : GeoRecord) : List GeoRecord :=
  (expand pts eps minPts)^[pts.length] [c]

/-- The cluster assignment of a point: the first core point (in table
order) whose cluster contains it, `none` for noise points. -/
def dbscanLabel (pts : List GeoRecord) (eps : ℚ) (minPts : ℕ)
    (p : GeoRecord) : Option GeoRecord :=
  pts.find? (fun c => isCore pts eps minPts c &&
    decide (p ∈ clusterOf pts eps minPts c))

/-- One output row of the `spatial_clusters` RPC. `members` is the group
of rows sharing the cluster id (over which the SQL aggregates project
`point_count`, `addresses`, the centroid and the average confidence). -/
structure Cluster where
  cluster_id : ℕ
  members : List GeoRecord
  cluster_center : Coord
  point_count : ℕ
  addresses : List String
  avg_confidence : ℚ
  deriving DecidableEq, Repr

/-- The aggregate row for the cluster represented by core point `c`. -/
def mkCluster (pts : List GeoRecord) (eps : ℚ) (minPts : ℕ)
    (c : GeoRecord) : Cluster :=
  let members := pts.filter (fun p => dbscanLabel pts eps minPts p == some c)
  { cluster_id := pts.findIdx (· == c)
    members := members
    cluster_center :=
      { lat := (members.map (·.coordinates.lat)).sum / members.length
        lon := (members.map (·.coordinates.lon)).sum / members.length }
    point_count := members.length
    addresses := members.map (·.raw_address)
    avg_confidence :=
      round2 ((members.map (·.confidence_score)).sum / members.length) }

/-- The `spatial_clusters` SQL function: filter the registry to the
geodesic radius (`st_dwithin` under `d`), run DBSCAN in degree space with
`eps = cluster_distance_m / 111320`, drop NULL-labelled rows, group by
cluster id and order by `point_count` descending. -/
def spatial_clusters (d : Coord → Coord → ℚ) (registry : List GeoRecord)
    (lat lon radius_m cluster_distance_m : ℚ) (min_points : ℕ) :
    List Cluster :=
  let center : Coord := { lat := lat, lon := lon }
  let pts := registry.filter (fun g => d g.coordinates center ≤ radius_m)
  let eps := cluster_distance_m / 111320
  let reps := pts.filter (fun c => isCore pts eps min_points c &&
    (dbscanLabel pts eps min_points c == some c))
  sortOrd (fun a b => b.point_count ≤ a.point_count)
    (reps.map (mkCluster pts eps min_points))

/-! ## The geofences function (src/unnamed/part_000) and its RPCs
(20260214000004_geofences.sql) -/

/-- A row of the `geofences` table; `boundary` is the polygon ring as
(lon, lat) pairs. -/
structure GeofenceRow where
  id : ℕ
  name : String
  description : Option String
  boundary : List (ℚ × ℚ)
  created_by : Option String
  created_at : ℕ
  deriving DecidableEq, Repr

/-- The create-action payload: `name` is `none` when missing or not a
string, `polygon` is `none` when not an array. -/
structure CreatePayload where
  name : Option String
  description : Option String := none
  polygon : Option (List (ℚ × ℚ))
  deriving DecidableEq, Repr

/-- The row a successful create forwards to the geofences store. -/
structure GeofenceInsert where
  name : String
  description : Option String
  boundary : List (ℚ × ℚ)
  created_by : Option String
  deriving DecidableEq, Repr

/-- Outcome of the create action: a 400 validation rejection, or the row
forwarded to storage (201 on store success). -/
inductive CreateOut where
  | badRequest (msg : String)
  | created (row : GeofenceInsert)
  deriving DecidableEq, Repr

/-- JS falsiness of the `name` field: missing, non-string, or the empty
string. -/
def nameFalsy : Option String → Bool
  | none => true
  | some s => s = ""

/-- The create action (part_000 lines 61-107): `!name` check, array and
length-≥-4 check, first-equals-last closure check, then the insert. No
other geometric validation is performed. -/
def createHandler (created_by : Option String) (p : CreatePayload) :
    CreateOut :=
  if nameFalsy p.name then .badRequest "name is required"
  else
    match p.polygon with
    | none => .badRequest "polygon must have at least 4 coordinate pairs"
    | some ring =>
      if ring.length < 4 then
        .badRequest "polygon must have at least 4 coordinate pairs"
      else if ring.head? ≠ ring.getLast? then
        .badRequest "Polygon must be closed"
      else
        .created { name := p.name.getD "", description := p.description,
                   boundary := ring, created_by := created_by }

/-- The check action (part_000 lines 110-136): coordinate range check,
then the `geofence_check` RPC, which returns the fences whose boundary
covers the point (`st_covers` is the external parameter `covers`). -/
def checkHandler (covers : List (ℚ × ℚ) → Coord → Bool)
    (fences : List GeofenceRow) (lat lon : ℚ) :
    Except String (List GeofenceRow) :=
  if lat < -90 ∨ 90 < lat ∨ lon < -180 ∨ 180 < lon then
    .error "Coordinates out of range"
  else
    .ok (fences.filter (fun g => covers g.boundary { lat := lat, lon := lon }))

/-- The `geofence_entries` SQL function (geofences.sql lines 59-86):
`geo_registry inner join geofences on g.id = fence_id`, covered rows
only, `limit max_results`. A fence id matching no geofence makes the
join empty; a negative SQL `LIMIT` is an error. -/
def geofence_entries (covers : List (ℚ × ℚ) → Coord → Bool)
    (registry : List GeoRecord) (fences : List GeofenceRow)
    (fence_id : ℕ) (max_results : ℤ) : Except String (List GeoRecord) :=
  if max_results < 0 then .error "LIMIT must not be negative"
  else
    match fences.find? (fun g => g.id == fence_id) with
    | none => .ok []
    | some g =>
      .ok ((registry.filter (fun r => covers g.boundary r.coordinates)).take
        max_results.toNat)

/-- The entries action (part_000 lines 139-161): `!fence_id` check, then
the RPC with `max_results` clamped via `Math.min(max_results, 500)`
(default 100); on success the count and the entries. -/
def entriesHandler (covers : List (ℚ × ℚ) → Coord → Bool)
    (registry : List GeoRecord) (fences : List GeofenceRow)
    (fence_id : Option ℕ) (max_results : ℤ) :
    Except String (ℕ × List GeoRecord) :=
  match fence_id with
  | none => .error "fence_id is required"
  | some fid =>
    match geofence_entries covers registry fences fid (min max_results 500) with
    | .error e => .error e
    | .ok rows => .ok (rows.length, rows)

/-! ## Modelled-from-spec definitions -/

/-- Modelled from the spec: the orientation determinant used by a
self-intersection test. The source performs no self-intersection check;
this definition only serves to compare the spec's claimed validation
against the code. -/
def orient (p q r : ℚ × ℚ) : ℚ :=
  (q.1 - p.1) * (r.2 - p.2) - (q.2 - p.2) * (r.1 - p.1)

/-- Modelled from the spec: proper crossing of two segments (strictly
opposite orientations on both sides); segments sharing an endpoint never
properly cross. -/
def segmentsCross (a b c d : ℚ × ℚ) : Bool :=
  decide (orient a b c * orient a b d < 0) &&
  decide (orient c d a * orient c d b < 0)

/-- Edges of a closed ring given as consecutive vertex pairs. -/
def ringEdges (ring : List (ℚ × ℚ)) : List ((ℚ × ℚ) × (ℚ × ℚ)) :=
  ring.zip ring.tail

/-- Modelled from the spec: a ring is self-intersecting when two of its
edges properly cross. The spec claims creation rejects such rings; the
source has no corresponding check. -/
def selfIntersecting (ring : List (ℚ × ℚ)) : Bool :=
  (ringEdges ring).any (fun e₁ => (ringEdges ring).any
    (fun e₂ => segmentsCross e₁.1 e₁.2 e₂.1 e₂.2))

/-! ## Concrete instances used by witnesses and counterexamples -/

/-- A concrete stand-in for the geodesic distance parameter: Chebyshev
distance in degrees scaled by the 111320 meters-per-degree constant. -/
def dCheb (a b : Coord) : ℚ :=
  111320 * max |a.lat - b.lat| |a.lon - b.lon|

/-- A standardized address with no components, for sample records. -/
def noStd : StandardizedAddress :=
  { house_number := none, road := none, city := none, state := none,
    postcode := none, country := none, country_code := none,
    formatted := "" }

/-- A sample registry record at the given coordinates. -/
def sampleRecord (n : ℕ) (lat lon : ℚ) : GeoRecord :=
  { id := n, raw_address := "addr", standardized_address := noStd,
    coordinates := { lat := lat, lon := lon }, source := "test",
    confidence_score := 1, created_at := n }

/-! ## Lemmas about the stable insertion sort -/

theorem insOrd_perm (le : α → α → Bool) (a : α) :
    ∀ l : List α, List.Perm (insOrd le a l) (a :: l) := by
  intro l
  induction l with
  | nil => simp [insOrd]
  | cons b l ih =>
    simp only [insOrd]
    by_cases h : le a b
    · simp [h]
    · simp only [h, if_false]
      exact (ih.cons b).trans (List.Perm.swap a b l)

theorem sortOrd_perm (le : α → α → Bool) :
    ∀ l : List α, List.Perm (sortOrd le l) l := by
  intro l
  induction l with
  | nil => simp [sortOrd]
  | cons b l ih =>
    exact (insOrd_perm le b (sortOrd le l)).trans (ih.cons b)

theorem mem_insOrd (le : α → α → Bool) (a x : α) (l : List α) :
    x ∈ insOrd le a l ↔ x = a ∨ x ∈ l := by
  rw [(insOrd_perm le a l).mem_iff, List.mem_cons]

theorem mem_sortOrd (le : α → α → Bool) (x : α) (l : List α) :
    x ∈ sortOrd le l ↔ x ∈ l :=
  (sortOrd_perm le l).mem_iff

theorem pairwise_insOrd (le : α → α → Bool)
    (htr : ∀ a b c, le a b = true → le b c = true → le a c = true)
    (hto : ∀ a b, le a b = true ∨ le b a = true) (a : α) :
    ∀ l : List α, l.Pairwise (le · · = true) →
      (insOrd le a l).Pairwise (le · · = true) := by
  intro l
  induction l with
  | nil => intro _; simp [insOrd]
  | cons b l ih =>
    intro h
    rw [List.pairwise_cons] at h
    simp only [insOrd]
    by_cases hab : le a b
    · rw [if_pos hab]
      refine List.Pairwise.cons ?_ (List.Pairwise.cons h.1 h.2)
      intro x hx
      rcases List.mem_cons.mp hx with rfl | hx
      · exact hab
      · exact htr a b x hab (h.1 x hx)
    · rw [if_neg hab]
      refine List.Pairwise.cons ?_ (ih h.2)
      intro x hx
      rcases (mem_insOrd le a x l).mp hx with rfl | hx
      · exact (hto x b).resolve_left hab
      · exact h.1 x hx

theorem pairwise_sortOrd (le : α → α → Bool)
    (htr : ∀ a b c, le a b = true → le b c = true → le a c = true)
    (hto : ∀ a b, le a b = true ∨ le b a = true) :
    ∀ l : List α, (sortOrd le l).Pairwise (le · · = true) := by
  intro l
  induction l with
  | nil => simp [sortOrd]
  | cons b l ih => exact pairwise_insOrd le htr hto b _ ih

theorem filter_insOrd (le : α → α → Bool) (p : α → Bool)
    (hp : ∀ x y, p x = true → p y = true → le x y = true) (a : α) :
    ∀ l : List α, (insOrd le a l).filter p =
      if p a then a :: l.filter p else l.filter p := by
  intro l
  induction l with
  | nil => by_cases hpa : p a <;> simp [insOrd, List.filter_cons, hpa]
  | cons b l ih =>
    simp only [insOrd]
    by_cases hab : le a b
    · rw [if_pos hab]
      by_cases hpa : p a <;> simp [List.filter_cons, hpa]
    · rw [if_neg hab]
      rw [List.filter_cons, List.filter_cons, ih]
      by_cases hpa : p a
      · have hpb : p b = false := by
          by_contra hb
          exact hab (hp a b hpa (by simpa using hb))
        simp [hpa, hpb]
      · by_cases hpb : p b <;> simp [hpa, hpb]

theorem filter_sortOrd (le : α → α → Bool) (p : α → Bool)
    (hp : ∀ x y, p x = true → p y = true → le x y = true) :
    ∀ l : List α, (sortOrd le l).filter p = l.filter p := by
  intro l
  induction l with
  | nil => rfl
  | cons b l ih =>
    rw [sortOrd, filter_insOrd le p hp, List.filter_cons, ih]

theorem sortTake_pairwise (k : α → ℚ) (l : List α) (n : ℕ) :
    ((sortOrd (fun a b => decide (k a ≤ k b)) l).take n).Pairwise
      (fun a b => k a ≤ k b) := by
  have hp := pairwise_sortOrd (fun a b => decide (k a ≤ k b))
    (fun a b c hab hbc => decide_eq_true
      (le_trans (of_decide_eq_true hab) (of_decide_eq_true hbc)))
    (fun a b => by
      rcases le_total (k a) (k b) with h | h
      · exact Or.inl (decide_eq_true h)
      · exact Or.inr (decide_eq_true h)) l
  exact (List.Pairwise.sublist (List.take_sublist n _) hp).imp fun h =>
    of_decide_eq_true h

theorem sortTake_mem (k : α → ℚ) (l : List α) (n : ℕ) :
    ∀ x ∈ (sortOrd (fun a b => decide (k a ≤ k b)) l).take n, x ∈ l :=
  fun x hx => (mem_sortOrd _ x l).mp (List.mem_of_mem_take hx)

theorem sortTake_filter_sublist (k : α → ℚ) (l : List α) (n : ℕ)
    (c : ℚ) :
    (((sortOrd (fun a b => decide (k a ≤ k b)) l).take n).filter
      (fun a => decide (k a = c))).Sublist
      (l.filter (fun a => decide (k a = c))) := by
  have he := filter_sortOrd (fun a b => decide (k a ≤ k b))
    (fun a => decide (k a = c))
    (fun x y hx hy => decide_eq_true (by
      rw [of_decide_eq_true hx, of_decide_eq_true hy])) l
  exact he ▸ List.Sublist.filter _ (List.take_sublist n _)

/-! ## Lemmas about the batch geocoding loop -/

/-- An address the batch loop rejects without contacting the provider:
not a string, or blank after trimming. -/
def isInvalidAddr : AddrInput → Bool
  | .nonString => true
  | .str s => jsTrim s == ""

theorem processItem_invalid (cb src : Option String) (a : AddrInput)
    (f : FetchOutcome) (h : isInvalidAddr a = true) :
    processItem cb src a f =
      ({ address := a, status := .error,
         errMsg := some "Invalid address string" }, none) := by
  cases a with
  | nonString => rfl
  | str s =>
    have hs : jsTrim s = "" := by simpa [isInvalidAddr] using h
    simp [processItem, hs]

theorem processItem_isSome (cb src : Option String) (a : AddrInput)
    (f : FetchOutcome) :
    (processItem cb src a f).2.isSome =
      ((processItem cb src a f).1.status == .success) := by
  cases a with
  | nonString => rfl
  | str s =>
    by_cases hs : jsTrim s = ""
    · simp [processItem, hs]
    · cases f with
      | httpError => simp [processItem, hs]
      | thrown => simp [processItem, hs]
      | ok results => cases results <;> simp [processItem, hs]

theorem geocodeLoop_length (cb src : Option String)
    (fetch : ℕ → FetchOutcome) :
    ∀ (i : ℕ) (inputs : List AddrInput),
      (geocodeLoop cb src fetch i inputs).1.length = inputs.length := by
  intro i inputs
  induction inputs generalizing i with
  | nil => rfl
  | cons a rest ih => simp [geocodeLoop, ih]

theorem geocodeLoop_getElem (cb src : Option String)
    (fetch : ℕ → FetchOutcome) :
    ∀ (i : ℕ) (inputs : List AddrInput) (j : ℕ),
      (geocodeLoop cb src fetch i inputs).1[j]? =
        inputs[j]?.map (fun a => (processItem cb src a (fetch (i + j))).1) := by
  intro i inputs
  induction inputs generalizing i with
  | nil => intro j; rfl
  | cons a rest ih =>
    intro j
    cases j with
    | zero => simp [geocodeLoop]
    | succ j =>
      have := ih (i + 1) j
      simpa [geocodeLoop, Nat.add_assoc, Nat.add_comm 1 j] using this

theorem geocodeLoop_rows_length (cb src : Option String)
    (fetch : ℕ → FetchOutcome) :
    ∀ (i : ℕ) (inputs : List AddrInput),
      (geocodeLoop cb src fetch i inputs).2.length =
        (geocodeLoop cb src fetch i inputs).1.countP
          (·.status == .success) := by
  intro i inputs
  induction inputs generalizing i with
  | nil => rfl
  | cons a rest ih =>
    have hs := processItem_isSome cb src a (fetch i)
    simp only [geocodeLoop, List.countP_cons]
    cases hrow : (processItem cb src a (fetch i)).2 with
    | none =>
      rw [hrow] at hs
      simp only [Option.isSome_none] at hs
      simp [Option.elim, ih (i + 1), ← hs]
    | some row =>
      rw [hrow] at hs
      simp only [Option.isSome_some] at hs
      simp [Option.elim, ih (i + 1), ← hs]

theorem countP_status_partition (rs : List ResultItem) :
    rs.countP (·.status == .success) + rs.countP (·.status == .not_found) +
      rs.countP (·.status == .error) = rs.length := by
  induction rs with
  | nil => rfl
  | cons r rs ih =>
    cases hr : r.status <;>
      simp only [List.countP_cons, hr, List.length_cons] <;>
      simp <;> omega

/-! ## Lemmas about the DBSCAN closure -/

theorem noise_not_mem_iterate (pts : List GeoRecord) (eps : ℚ) (mp : ℕ)
    (p c : GeoRecord) (hc : c ∈ pts) (hcore : isCore pts eps mp c = true)
    (hp : isCore pts eps mp p = false)
    (hn : ∀ q ∈ pts, isCore pts eps mp q = true →
      nearDeg eps q.coordinates p.coordinates = false) :
    ∀ n : ℕ, p ∉ (expand pts eps mp)^[n] [c] ∧
      ∀ x ∈ (expand pts eps mp)^[n] [c], x ∈ pts := by
  intro n
  induction n with
  | zero =>
    constructor
    · intro hmem
      rcases List.mem_singleton.mp hmem with rfl
      rw [hcore] at hp
      simp at hp
    · intro x hx
      rcases List.mem_singleton.mp hx with rfl
      exact hc
  | succ n ih =>
    rw [Function.iterate_succ_apply']
    constructor
    · intro hmem
      rw [expand, List.mem_filter] at hmem
      rcases hmem with ⟨_, hcond⟩
      rcases Bool.or_eq_true_iff.mp hcond with hin | hany
      · exact ih.1 (of_decide_eq_true hin)
      · rcases List.any_eq_true.mp hany with ⟨q, hqmem, hq⟩
        rcases Bool.and_eq_true_iff.mp hq with ⟨hqcore, hqnear⟩
        have := hn q (ih.2 q hqmem) hqcore
        rw [this] at hqnear
        simp at hqnear
    · intro x hx
      rw [expand, List.mem_filter] at hx
      exact hx.1

deriving instance DecidableEq for Except

/-! ## Claim theorems -/

section ClaimTheorems

attribute [local semireducible] Rat.add Rat.mul Rat.sub Rat.inv in
/-- C1: for every provider result, the confidence score of the created
record equals the count of non-empty fields among house_number, road,
city, state, postcode, country divided by 6, rounded to 2 decimals; this
value is always in [0,1]; and forward geocode, reverse geocode and batch
geocode all use the same formula. -/
theorem confidence_score_formula (a : AddressComponents) :
    computeConfidence a = round2 ((nonEmptyFieldCount a : ℚ) / 6) ∧
    confidenceScoreGeocode a = computeConfidence a ∧
    confidenceScoreReverse a = computeConfidence a ∧
    0 ≤ computeConfidence a ∧ computeConfidence a ≤ 1 := by
  have h1 : computeConfidence a = round2 ((nonEmptyFieldCount a : ℚ) / 6) := by
    simp [computeConfidence, nonEmptyFieldCount]
  have h6 : nonEmptyFieldCount a ≤ 6 := by
    have := List.length_filter_le jsTruthy [a.house_number, a.road, a.city,
      a.state, a.postcode, a.country]
    simpa [nonEmptyFieldCount] using this
  have hb : 0 ≤ round2 ((nonEmptyFieldCount a : ℚ) / 6) ∧
      round2 ((nonEmptyFieldCount a : ℚ) / 6) ≤ 1 := by
    set n := nonEmptyFieldCount a with hn
    clear_value n
    interval_cases n <;> exact ⟨by decide, by decide⟩
  exact ⟨h1, rfl, rfl, h1 ▸ hb.1, h1 ▸ hb.2⟩

/-- C2: for every batch geocode request whose response includes a
summary, succeeded + not_found + failed equals total (the number of
input addresses) and inserted is at most succeeded. -/
theorem batch_summary_consistent (inputs : List AddrInput)
    (fetch : ℕ → FetchOutcome) (cb src : Option String) (insertOk : Bool)
    (s : Summary) (rs : List ResultItem)
    (h : batchHandler inputs fetch cb src insertOk = .ok s rs) :
    s.succeeded + s.not_found + s.failed = s.total ∧
    s.inserted ≤ s.succeeded := by
  unfold batchHandler at h
  by_cases h0 : inputs = []
  · rw [if_pos h0] at h
    exact absurd h (by simp)
  · rw [if_neg h0] at h
    by_cases h1 : MAX_BATCH_SIZE < inputs.length
    · rw [if_pos h1] at h
      exact absurd h (by simp)
    · rw [if_neg h1] at h
      by_cases h2 : (geocodeLoop cb src fetch 0 inputs).2 ≠ [] ∧ insertOk = false
      · rw [if_pos h2] at h
        exact absurd h (by simp)
      · rw [if_neg h2] at h
        rw [BatchResponse.ok.injEq] at h
        rcases h with ⟨hs, _⟩
        subst hs
        have hlen := geocodeLoop_length cb src fetch 0 inputs
        have hpart := countP_status_partition (geocodeLoop cb src fetch 0 inputs).1
        have hrows := geocodeLoop_rows_length cb src fetch 0 inputs
        constructor
        · simp only
          omega
        · simp only
          by_cases hr : (geocodeLoop cb src fetch 0 inputs).2 = [] <;>
            simp [hr] <;> omega

attribute [local semireducible] Rat.add Rat.mul Rat.sub Rat.inv in
/-- Concrete run discharging the hypothesis of batch_summary_consistent:
the three-address scenario with a provider that always returns zero
candidates. -/
theorem batch_summary_consistent_witness :
    batchHandler [AddrInput.str "Ulaanbaatar", AddrInput.str "",
        AddrInput.str "Darkhan"] (fun _ => .ok []) none none true =
      .ok { total := 3, succeeded := 0, not_found := 2, failed := 1,
            inserted := 0 }
        [{ address := .str "Ulaanbaatar", status := .not_found },
         { address := .str "", status := .error,
           errMsg := some "Invalid address string" },
         { address := .str "Darkhan", status := .not_found }] ∧
    (0 + 2 + 1 = 3 ∧ 0 ≤ 0) := by
  have h : batchHandler [AddrInput.str "Ulaanbaatar", AddrInput.str "",
      AddrInput.str "Darkhan"] (fun _ => .ok []) none none true =
      .ok { total := 3, succeeded := 0, not_found := 2, failed := 1,
            inserted := 0 }
        [{ address := .str "Ulaanbaatar", status := .not_found },
         { address := .str "", status := .error,
           errMsg := some "Invalid address string" },
         { address := .str "Darkhan", status := .not_found }] := by decide
  exact ⟨h, batch_summary_consistent _ _ _ _ _ _ _ h⟩

/-- C5: every input address yields exactly one per-item outcome (the
result list has one entry per address, each a function of only that
address and its own provider outcome, so no per-item failure aborts the
rest), and a non-string or blank address yields status error with no
dependence on the provider. -/
theorem batch_item_isolation (cb src : Option String)
    (fetch : ℕ → FetchOutcome) (inputs : List AddrInput) :
    (geocodeLoop cb src fetch 0 inputs).1.length = inputs.length ∧
    (∀ j : ℕ, (geocodeLoop cb src fetch 0 inputs).1[j]? =
      inputs[j]?.map (fun a => (processItem cb src a (fetch j)).1)) ∧
    (∀ (a : AddrInput) (f : FetchOutcome), isInvalidAddr a = true →
      processItem cb src a f =
        ({ address := a, status := .error,
           errMsg := some "Invalid address string" }, none)) := by
  refine ⟨geocodeLoop_length cb src fetch 0 inputs, ?_, ?_⟩
  · intro j
    simpa using geocodeLoop_getElem cb src fetch 0 inputs j
  · intro a f h
    exact processItem_invalid cb src a f h

attribute [local semireducible] Rat.add Rat.mul Rat.sub Rat.inv in
/-- Concrete run discharging the hypothesis of batch_item_isolation: in
the three-address scenario the blank second address yields status error
while the others are processed. -/
theorem batch_item_isolation_witness :
    isInvalidAddr (.str "") = true ∧
    (geocodeLoop none none (fun _ => .ok []) 0 [AddrInput.str "Ulaanbaatar",
      AddrInput.str "", AddrInput.str "Darkhan"]).1.length = 3 ∧
    (geocodeLoop none none (fun _ => .ok []) 0 [AddrInput.str "Ulaanbaatar",
      AddrInput.str "", AddrInput.str "Darkhan"]).1[1]? =
      some { address := .str "", status := .error,
             errMsg := some "Invalid address string" } ∧
    processItem none none (.str "") .httpError =
      ({ address := .str "", status := .error,
         errMsg := some "Invalid address string" }, none) := by
  have h := batch_item_isolation none none (fun _ => .ok [])
    [AddrInput.str "Ulaanbaatar", AddrInput.str "", AddrInput.str "Darkhan"]
  refine ⟨by decide, by simpa using h.1, (h.2.1 1).trans (by decide),
    h.2.2 (.str "") .httpError (by decide)⟩

/-- C6: all successful rows are persisted in one bulk insert after the
loop; if that insert fails, the handler returns the computed per-item
results alongside the storage error, discarding nothing; on success the
inserted count is exactly the number of accumulated success rows. -/
theorem batch_bulk_insert (inputs : List AddrInput)
    (fetch : ℕ → FetchOutcome) (cb src : Option String)
    (hne : inputs ≠ []) (hlen : inputs.length ≤ MAX_BATCH_SIZE) :
    ((geocodeLoop cb src fetch 0 inputs).2 ≠ [] →
      batchHandler inputs fetch cb src false =
        .storageFailure "Geocoding succeeded but database insert failed"
          (geocodeLoop cb src fetch 0 inputs).1) ∧
    batchHandler inputs fetch cb src true =
      .ok { total := inputs.length
            succeeded := (geocodeLoop cb src fetch 0 inputs).1.countP
              (·.status == .success)
            not_found := (geocodeLoop cb src fetch 0 inputs).1.countP
              (·.status == .not_found)
            failed := (geocodeLoop cb src fetch 0 inputs).1.countP
              (·.status == .error)
            inserted := (geocodeLoop cb src fetch 0 inputs).2.length }
        (geocodeLoop cb src fetch 0 inputs).1 ∧
    (geocodeLoop cb src fetch 0 inputs).2.length =
      (geocodeLoop cb src fetch 0 inputs).1.countP (·.status == .success) := by
  refine ⟨?_, ?_, geocodeLoop_rows_length cb src fetch 0 inputs⟩
  · intro hr2
    unfold batchHandler
    rw [if_neg hne, if_neg (not_lt.mpr hlen), if_pos ⟨hr2, rfl⟩]
  · unfold batchHandler
    rw [if_neg hne, if_neg (not_lt.mpr hlen),
      if_neg (by simp : ¬((geocodeLoop cb src fetch 0 inputs).2 ≠ [] ∧
        true = false))]
    by_cases hr : (geocodeLoop cb src fetch 0 inputs).2 = [] <;> simp [hr]

/-- Provider result used by the batch_bulk_insert witness. -/
def wNomResult : NominatimResult :=
  { lat := 47, lon := 106, display_name := "X", address := {} }

/-- The success item the batch_bulk_insert witness run produces. -/
def wSuccessItem : ResultItem :=
  { address := .str "A", status := .success,
    data := some { standardized_address := buildStandardized {} "X",
                   lat := 47, lon := 106, confidence_score := 0 } }

attribute [local semireducible] Rat.add Rat.mul Rat.sub Rat.inv in
/-- Concrete run discharging the hypotheses of batch_bulk_insert: a
one-address batch whose provider call succeeds, with a failing and a
succeeding bulk insert. -/
theorem batch_bulk_insert_witness :
    ([AddrInput.str "A"] ≠ ([] : List AddrInput) ∧
      [AddrInput.str "A"].length ≤ MAX_BATCH_SIZE) ∧
    batchHandler [AddrInput.str "A"] (fun _ => .ok [wNomResult]) none none
        false =
      .storageFailure "Geocoding succeeded but database insert failed"
        [wSuccessItem] ∧
    batchHandler [AddrInput.str "A"] (fun _ => .ok [wNomResult]) none none
        true =
      .ok { total := 1, succeeded := 1, not_found := 0, failed := 0,
            inserted := 1 } [wSuccessItem] := by
  have h := batch_bulk_insert [AddrInput.str "A"]
    (fun _ => .ok [wNomResult]) none none (by decide) (by decide)
  exact ⟨⟨by decide, by decide⟩, (h.1 (by decide)).trans (by decide),
    h.2.1.trans (by decide)⟩

/-- Four registry records for the C4 counterexample: cxA and cxB are core
points, cxC and cxD are border points with only 2 neighbors each. -/
def cxA : GeoRecord := sampleRecord 1 0 0

/-- Second counterexample record (core). -/
def cxB : GeoRecord := sampleRecord 2 0 (3/10)

/-- Third counterexample record (border of cxA). -/
def cxC : GeoRecord := sampleRecord 3 0 (-3/10)

/-- Fourth counterexample record: within eps only of cxB, so it has
fewer than minPoints neighbors, yet DBSCAN clusters it as a border
point. -/
def cxD : GeoRecord := sampleRecord 4 0 (7/10)

attribute [local semireducible] Rat.add Rat.mul Rat.sub Rat.inv in
/-- C4 counterexample: with minPoints 3, eps 55660 m (0.5 degrees), the
record cxD has only 2 input points within eps (so it "belongs to no
dense cluster" in the claim's sense of having fewer than minPoints
neighbors within epsMeters), yet it is not excluded: it appears in a
returned cluster, because ST_ClusterDBSCAN also clusters border
geometries that lie within eps of a core geometry. -/
theorem cluster_noise_counterexample :
    ([cxA, cxB, cxC, cxD].countP
      (fun q => nearDeg (55660 / 111320) cxD.coordinates q.coordinates)) < 3 ∧
    (spatial_clusters dCheb [cxA, cxB, cxC, cxD] 0 0 100000 55660 3).any
      (fun cl => decide (cxD ∈ cl.members)) = true :=
  ⟨by decide, by decide⟩

/-- C4 (amended): a point that is neither a core point (at least
minPoints input points within epsMeters, counting itself) nor within
epsMeters of any core point is excluded from the result entirely — no
noise cluster is emitted — and when no point of the query subset is a
core point (in particular with minPoints 3 and only 2 points within
epsMeters of each other) the returned cluster set is empty. -/
theorem cluster_noise_excluded :
    (∀ (d : Coord → Coord → ℚ) (registry : List GeoRecord)
      (lat lon radius_m cluster_distance_m : ℚ) (min_points : ℕ)
      (p : GeoRecord),
      isCore (registry.filter (fun g =>
          decide (d g.coordinates { lat := lat, lon := lon } ≤ radius_m)))
        (cluster_distance_m / 111320) min_points p = false →
      (∀ q ∈ registry.filter (fun g =>
          decide (d g.coordinates { lat := lat, lon := lon } ≤ radius_m)),
        isCore (registry.filter (fun g =>
            decide (d g.coordinates { lat := lat, lon := lon } ≤ radius_m)))
          (cluster_distance_m / 111320) min_points q = true →
        nearDeg (cluster_distance_m / 111320) q.coordinates p.coordinates =
          false) →
      ∀ cl ∈ spatial_clusters d registry lat lon radius_m
          cluster_distance_m min_points, p ∉ cl.members) ∧
    (∀ (d : Coord → Coord → ℚ) (registry : List GeoRecord)
      (lat lon radius_m cluster_distance_m : ℚ) (min_points : ℕ),
      (∀ q ∈ registry.filter (fun g =>
          decide (d g.coordinates { lat := lat, lon := lon } ≤ radius_m)),
        isCore (registry.filter (fun g =>
            decide (d g.coordinates { lat := lat, lon := lon } ≤ radius_m)))
          (cluster_distance_m / 111320) min_points q = false) →
      spatial_clusters d registry lat lon radius_m cluster_distance_m
        min_points = []) := by
  constructor
  · intro d registry lat lon radius_m cluster_distance_m min_points p
      hpcore hnb cl hcl hmem
    unfold spatial_clusters at hcl
    rw [mem_sortOrd] at hcl
    rcases List.mem_map.mp hcl with ⟨c, hc, rfl⟩
    rcases List.mem_filter.mp hc with ⟨hcpts, hcpred⟩
    rcases Bool.and_eq_true_iff.mp hcpred with ⟨hccore, _⟩
    unfold mkCluster at hmem
    simp only at hmem
    rcases List.mem_filter.mp hmem with ⟨_, hplabel⟩
    have hlabel : dbscanLabel (registry.filter (fun g =>
        decide (d g.coordinates { lat := lat, lon := lon } ≤ radius_m)))
        (cluster_distance_m / 111320) min_points p = some c := by
      simpa using hplabel
    have hpred := List.find?_some hlabel
    rcases Bool.and_eq_true_iff.mp hpred with ⟨_, hpin⟩
    have hpin2 := of_decide_eq_true hpin
    exact (noise_not_mem_iterate _ _ _ p c hcpts hccore hpcore hnb _).1
      hpin2
  · intro d registry lat lon radius_m cluster_distance_m min_points hnoc
    simp only [spatial_clusters]
    have : (registry.filter (fun g =>
        decide (d g.coordinates { lat := lat, lon := lon } ≤
          radius_m))).filter (fun c =>
        isCore (registry.filter (fun g =>
            decide (d g.coordinates { lat := lat, lon := lon } ≤ radius_m)))
          (cluster_distance_m / 111320) min_points c &&
        (dbscanLabel (registry.filter (fun g =>
            decide (d g.coordinates { lat := lat, lon := lon } ≤ radius_m)))
          (cluster_distance_m / 111320) min_points c == some c)) = [] := by
      rw [List.filter_eq_nil_iff]
      intro c hc
      rw [hnoc c hc]
      simp
    rw [this]
    rfl

/-- Two registry records within eps of each other for the
cluster_noise_excluded witness. -/
def cnA : GeoRecord := sampleRecord 11 0 0

/-- Second witness record, 0.3 degrees from cnA. -/
def cnB : GeoRecord := sampleRecord 12 0 (3/10)

attribute [local semireducible] Rat.add Rat.mul Rat.sub Rat.inv in
/-- Concrete run discharging the hypotheses of cluster_noise_excluded:
with minPoints 3 and only the two mutually-near records cnA and cnB in
range, no point is core, the cluster set is empty, and cnA is in no
returned cluster. -/
theorem cluster_noise_excluded_witness :
    (∀ q ∈ [cnA, cnB].filter (fun g =>
        decide (dCheb g.coordinates { lat := 0, lon := 0 } ≤ 100000)),
      isCore ([cnA, cnB].filter (fun g =>
          decide (dCheb g.coordinates { lat := 0, lon := 0 } ≤ 100000)))
        ((55660 : ℚ) / 111320) 3 q = false) ∧
    spatial_clusters dCheb [cnA, cnB] 0 0 100000 55660 3 = [] ∧
    ∀ cl ∈ spatial_clusters dCheb [cnA, cnB] 0 0 100000 55660 3,
      cnA ∉ cl.members := by
  refine ⟨by decide, cluster_noise_excluded.2 dCheb [cnA, cnB] 0 0 100000
    55660 3 (by decide), cluster_noise_excluded.1 dCheb [cnA, cnB] 0 0
    100000 55660 3 cnA (by decide) (by decide)⟩

attribute [local semireducible] Rat.add Rat.mul Rat.sub Rat.inv in
/-- C7 counterexample: with no geofence matching fence id 7 (the fence
list is empty) and a non-empty registry, the entries action succeeds
with an empty list instead of failing with NotFound: the inner join
simply matches nothing. -/
theorem entries_missing_fence_counterexample :
    (([] : List GeofenceRow).find? (fun g => g.id == 7) = none) ∧
    entriesHandler (fun _ _ => true) [sampleRecord 21 0 0] [] (some 7)
      100 = .ok (0, []) :=
  ⟨by decide, by decide⟩

/-- C7 (amended): for every entries request whose well-formed fence_id
references no existing geofence (and whose max_results is
non-negative), the operation succeeds with count 0 and an empty entry
list — no NotFound error is raised, because the SQL inner join on the
missing fence id yields an empty result set. -/
theorem entries_missing_fence (covers : List (ℚ × ℚ) → Coord → Bool)
    (registry : List GeoRecord) (fences : List GeofenceRow)
    (fid : ℕ) (m : ℤ) (hm : 0 ≤ m)
    (hnone : fences.find? (fun g => g.id == fid) = none) :
    entriesHandler covers registry fences (some fid) m = .ok (0, []) := by
  simp only [entriesHandler, geofence_entries]
  rw [if_neg (by omega : ¬min m 500 < 0), hnone]
  rfl

attribute [local semireducible] Rat.add Rat.mul Rat.sub Rat.inv in
/-- Concrete run discharging the hypotheses of entries_missing_fence. -/
theorem entries_missing_fence_witness :
    ((0:ℤ) ≤ 100) ∧
    (([] : List GeofenceRow).find? (fun g => g.id == 9) = none) ∧
    entriesHandler (fun _ _ => true) [sampleRecord 22 1 1] [] (some 9)
      100 = .ok (0, []) :=
  ⟨by decide, by decide,
    entries_missing_fence (fun _ _ => true) [sampleRecord 22 1 1] [] 9 100
      (by decide) (by decide)⟩

attribute [local semireducible] Rat.add Rat.mul Rat.sub Rat.inv in
/-- C8 counterexample: a radius-search request with max_results 150,
above the 100 ceiling, is not rejected with a validation error: the
handler succeeds (the value is silently clamped). -/
theorem limits_counterexample :
    (100 < (150:ℤ)) ∧
    nearbyHandler dCheb []
      { lat := 0, lon := 0, radius_m := 1000, max_results := 150 } =
      .ok [] :=
  ⟨by decide, by decide⟩

/-- C8 (amended): radius above 50000 m (radius search) and batch size
above 50 are rejected with validation errors, but max_results above the
100 ceiling (radius search) or the 500 ceiling (geofence entries) is
silently clamped to the ceiling, not rejected: the request succeeds
with at most 100 (respectively 500) results. -/
theorem limits_enforced :
    (∀ (d : Coord → Coord → ℚ) (registry : List GeoRecord)
      (req : NearbyRequest), 50000 < req.radius_m →
      ∀ out, nearbyHandler d registry req ≠ .ok out) ∧
    (∀ (inputs : List AddrInput) (fetch : ℕ → FetchOutcome)
      (cb src : Option String) (insertOk : Bool),
      MAX_BATCH_SIZE < inputs.length →
      batchHandler inputs fetch cb src insertOk =
        .badRequest "Batch size exceeds maximum of 50") ∧
    (∀ (d : Coord → Coord → ℚ) (registry : List GeoRecord)
      (req : NearbyRequest),
      ¬(req.lat < -90 ∨ 90 < req.lat ∨ req.lon < -180 ∨ 180 < req.lon) →
      0 < req.radius_m → req.radius_m ≤ 50000 → 100 ≤ req.max_results →
      ∃ out, nearbyHandler d registry req = .ok out ∧ out.length ≤ 100) ∧
    (∀ (covers : List (ℚ × ℚ) → Coord → Bool) (registry : List GeoRecord)
      (fences : List GeofenceRow) (fid : ℕ) (m : ℤ), 500 ≤ m →
      ∃ res, entriesHandler covers registry fences (some fid) m =
        .ok res ∧ res.1 ≤ 500) := by
  refine ⟨?_, ?_, ?_, ?_⟩
  · intro d registry req hr out
    unfold nearbyHandler
    by_cases hc : req.lat < -90 ∨ 90 < req.lat ∨ req.lon < -180 ∨
      180 < req.lon
    · rw [if_pos hc]
      simp
    · rw [if_neg hc, if_pos (Or.inr hr)]
      simp
  · intro inputs fetch cb src insertOk h
    have hne : inputs ≠ [] := by
      intro he
      rw [he] at h
      simp [MAX_BATCH_SIZE] at h
    unfold batchHandler
    rw [if_neg hne, if_pos h]
  · intro d registry req hc h0 h50 hm
    simp only [nearbyHandler, nearby_search]
    rw [if_neg hc,
      if_neg ((not_or.mpr ⟨not_le.mpr h0, not_lt.mpr h50⟩ :
        ¬(req.radius_m ≤ 0 ∨ 50000 < req.radius_m))),
      min_eq_right hm, if_neg (by norm_num : ¬(100:ℤ) < 0)]
    refine ⟨_, rfl, ?_⟩
    rw [List.length_map, List.length_take]
    exact le_trans (Nat.min_le_left _ _) (by decide)
  · intro covers registry fences fid m hm
    simp only [entriesHandler, geofence_entries]
    rw [min_eq_right hm, if_neg (by norm_num : ¬(500:ℤ) < 0)]
    cases hfind : fences.find? (fun g => g.id == fid) with
    | none => exact ⟨(0, []), rfl, by norm_num⟩
    | some g =>
      refine ⟨_, rfl, ?_⟩
      simp only [List.length_take]
      exact le_trans (Nat.min_le_left _ _) (by norm_num)

/-- Concrete runs discharging the hypotheses of limits_enforced: an
over-ceiling radius is rejected, an over-ceiling batch is rejected, and
over-ceiling max_results values succeed clamped. -/
theorem limits_enforced_witness :
    (50000 < (60000:ℚ) ∧ ∀ out, nearbyHandler dCheb []
      { lat := 0, lon := 0, radius_m := 60000, max_results := 10 } ≠
        .ok out) ∧
    (MAX_BATCH_SIZE < (List.replicate 51 AddrInput.nonString).length ∧
      batchHandler (List.replicate 51 .nonString) (fun _ => .ok []) none
        none true = .badRequest "Batch size exceeds maximum of 50") ∧
    (∃ out, nearbyHandler dCheb []
      { lat := 0, lon := 0, radius_m := 1000, max_results := 250 } =
        .ok out ∧ out.length ≤ 100) ∧
    (∃ res, entriesHandler (fun _ _ => true) [] [] (some 3) 800 =
      .ok res ∧ res.1 ≤ 500) := by
  refine ⟨⟨by norm_num, limits_enforced.1 dCheb [] _ (by norm_num)⟩,
    ⟨by decide, limits_enforced.2.1 _ _ _ _ _ (by decide)⟩,
    limits_enforced.2.2.1 dCheb [] _ (by norm_num) (by norm_num)
      (by norm_num) (by norm_num),
    limits_enforced.2.2.2 _ [] [] 3 800 (by norm_num)⟩

/-- The self-intersecting (bowtie) ring of the C9 counterexample:
closed, 5 vertices, edges (0,0)-(1,1) and (1,0)-(0,1) properly cross. -/
def bowtie : List (ℚ × ℚ) := [(0,0), (1,1), (1,0), (0,1), (0,0)]

attribute [local semireducible] Rat.add Rat.mul Rat.sub Rat.inv in
/-- C9 counterexample: the closed 5-vertex bowtie ring is
self-intersecting, yet geofence creation accepts it and forwards it to
storage — the source never checks self-intersection. -/
theorem create_selfintersecting_accepted :
    selfIntersecting bowtie = true ∧
    createHandler none { name := some "fence", polygon := some bowtie } =
      .created { name := "fence", description := none, boundary := bowtie,
                 created_by := none } :=
  ⟨by decide, by decide⟩

/-- C9 (amended): a geofence create request is accepted (and its
polygon forwarded to storage) exactly when the name is a non-empty
string and the polygon is an array of at least 4 coordinate pairs whose
first vertex equals its last; an empty name or a violated ring
condition is rejected before storage, but no self-intersection check is
performed. -/
theorem create_validation (cb : Option String) (p : CreatePayload) :
    (∃ row, createHandler cb p = .created row) ↔
      (nameFalsy p.name = false ∧ ∃ ring, p.polygon = some ring ∧
        4 ≤ ring.length ∧ ring.head? = ring.getLast?) := by
  constructor
  · rintro ⟨row, hrow⟩
    unfold createHandler at hrow
    split at hrow
    · exact absurd hrow (by simp)
    · rename_i hn
      split at hrow
      · exact absurd hrow (by simp)
      · rename_i ring hp
        split at hrow
        · exact absurd hrow (by simp)
        · rename_i hlen
          split at hrow
          · exact absurd hrow (by simp)
          · rename_i hcl
            exact ⟨by simpa using hn, ring, hp, by omega,
              by simpa using hcl⟩
  · rintro ⟨hn, ring, hp, hlen, hcl⟩
    have hrow : createHandler cb p =
        .created
          { name := p.name.getD "", description := p.description,
            boundary := ring, created_by := cb } := by
      unfold createHandler
      simp only [hp]
      rw [if_neg (by simp [hn]), if_neg (by omega),
        if_neg (by simpa using hcl)]
    exact ⟨_, hrow⟩

/-- The closed square ring of spec scenario 4, used by the
create_validation witness. -/
def sqRing : List (ℚ × ℚ) :=
  [(1069/10, 4791/100), (10693/100, 4791/100), (10693/100, 4793/100),
   (1069/10, 4793/100), (1069/10, 4791/100)]

attribute [local semireducible] Rat.add Rat.mul Rat.sub Rat.inv in
/-- Concrete run exercising create_validation: the closed 5-vertex
square ring with a non-empty name is accepted. -/
theorem create_validation_witness :
    ∃ row, createHandler none
      { name := some "park", polygon := some sqRing } = .created row :=
  (create_validation none
    { name := some "park", polygon := some sqRing }).mpr
    ⟨by decide, sqRing, rfl, by decide, by decide⟩

/-- C10: geofence creation performs no coordinate-range validation: any
payload with a truthy name and a closed ring of at least 4 pairs is
accepted and its polygon forwarded unchanged to storage, regardless of
vertex coordinate ranges; only the check action range-validates its
input point. -/
theorem create_no_range_check :
    (∀ (cb : Option String) (p : CreatePayload) (ring : List (ℚ × ℚ)),
      p.polygon = some ring → nameFalsy p.name = false →
      4 ≤ ring.length → ring.head? = ring.getLast? →
      createHandler cb p =
        .created
          { name := p.name.getD "", description := p.description,
            boundary := ring, created_by := cb }) ∧
    (∀ (covers : List (ℚ × ℚ) → Coord → Bool) (fences : List GeofenceRow)
      (lat lon : ℚ),
      (lat < -90 ∨ 90 < lat ∨ lon < -180 ∨ 180 < lon) →
      checkHandler covers fences lat lon =
        .error "Coordinates out of range") := by
  constructor
  · intro cb p ring hp hn hlen hcl
    unfold createHandler
    simp only [hp]
    rw [if_neg (by simp [hn]), if_neg (by omega),
      if_neg (by simpa using hcl)]
  · intro covers fences lat lon h
    unfold checkHandler
    rw [if_pos h]

/-- A closed 4-vertex ring whose latitudes are far outside [-90, 90],
for the create_no_range_check witness. -/
def ring200 : List (ℚ × ℚ) := [(0,200), (1,200), (1,201), (0,200)]

attribute [local semireducible] Rat.add Rat.mul Rat.sub Rat.inv in
/-- Concrete runs discharging the hypotheses of create_no_range_check:
the out-of-range ring is accepted and forwarded to storage, while the
check action rejects an out-of-range point. -/
theorem create_no_range_check_witness :
    (ring200.head? = ring200.getLast? ∧ 4 ≤ ring200.length) ∧
    createHandler none { name := some "f", polygon := some ring200 } =
      .created { name := "f", description := none, boundary := ring200,
                 created_by := none } ∧
    checkHandler (fun _ _ => true) [] 200 0 =
      .error "Coordinates out of range" := by
  refine ⟨⟨by decide, by decide⟩,
    create_no_range_check.1 none _ ring200 rfl (by decide) (by decide)
      (by decide),
    create_no_range_check.2 (fun _ _ => true) [] 200 0 (by norm_num)⟩

set_option maxHeartbeats 2000000 in
/-- The deterministic nearby-search model is one admissible execution of
the SQL nearby_search relation: every response it produces satisfies
NearbyHandlerRel. -/
theorem nearbyHandler_refines (d : Coord → Coord → ℚ)
    (registry : List GeoRecord) (req : NearbyRequest)
    (out : List (GeoRecord × ℚ))
    (h : nearbyHandler d registry req = .ok out) :
    NearbyHandlerRel d registry req out := by
  unfold nearbyHandler at h
  by_cases hc : req.lat < -90 ∨ 90 < req.lat ∨ req.lon < -180 ∨
      180 < req.lon
  · rw [if_pos hc] at h
    exact absurd h (by simp)
  rw [if_neg hc] at h
  by_cases hr : req.radius_m ≤ 0 ∨ 50000 < req.radius_m
  · rw [if_pos hr] at h
    exact absurd h (by simp)
  rw [if_neg hr] at h
  unfold nearby_search at h
  by_cases hm : min req.max_results 100 < 0
  · rw [if_pos hm] at h
    exact absurd h (by simp)
  rw [if_neg hm] at h
  simp only [Except.ok.injEq] at h
  refine ⟨hc, hr, _, ⟨by omega, sortOrd (fun a b => decide (a.2 ≤ b.2))
    ((registry.filter (fun g =>
      decide (d g.coordinates { lat := req.lat, lon := req.lon } ≤
        req.radius_m))).map
      (fun g => (g, d g.coordinates { lat := req.lat, lon := req.lon }))),
    sortOrd_perm _ _, ?_, rfl⟩, h.symm⟩
  exact (pairwise_sortOrd
    (fun a b : GeoRecord × ℚ => decide (a.2 ≤ b.2))
    (fun a b c hab hbc => decide_eq_true
      (le_trans (of_decide_eq_true hab) (of_decide_eq_true hbc)))
    (fun a b => by
      rcases le_total a.2 b.2 with hle | hle
      · exact Or.inl (decide_eq_true hle)
      · exact Or.inr (decide_eq_true hle)) _).imp
    (fun hab => of_decide_eq_true hab)

/-- Registry record 3339.6 m from the origin under dCheb, for the C3
counterexample: same distance as te2 but earlier in the table. -/
def te1 : GeoRecord := sampleRecord 41 (3/100) 0

/-- Registry record at the same 3339.6 m dCheb distance as te1, later in
the table. -/
def te2 : GeoRecord := sampleRecord 42 0 (3/100)

attribute [local semireducible] Rat.add Rat.mul Rat.sub Rat.inv in
/-- C3 counterexample: two records at the same distance from the center,
with an admissible program response (the SQL order by gives no tie
guarantee, so any distance-sorted permutation may be returned) listing
them in reversed table order; the response violates the claimed
tie-broken-by-insertion-order property, since the equal-distance records
do not appear as a Sublist of the registry. -/
theorem radius_search_tie_order_counterexample :
    dCheb te1.coordinates { lat := 0, lon := 0 } =
      dCheb te2.coordinates { lat := 0, lon := 0 } ∧
    NearbyHandlerRel dCheb [te1, te2]
      { lat := 0, lon := 0, radius_m := 5000, max_results := 20 }
      [(te2, 16698/5), (te1, 16698/5)] ∧
    ¬((([(te2, (16698:ℚ)/5), (te1, 16698/5)].map Prod.fst).filter (fun g =>
        decide (dCheb g.coordinates { lat := 0, lon := 0 } =
          16698/5))).Sublist [te1, te2]) := by
  have hpaired : (([te1, te2].filter (fun g =>
      decide (dCheb g.coordinates { lat := 0, lon := 0 } ≤ 5000))).map
      (fun g => (g, dCheb g.coordinates { lat := 0, lon := 0 }))) =
      [(te1, (16698:ℚ)/5), (te2, 16698/5)] := by decide
  refine ⟨by decide, ⟨by decide, by decide,
    [(te2, (16698:ℚ)/5), (te1, 16698/5)],
    ⟨by decide, [(te2, (16698:ℚ)/5), (te1, 16698/5)], ?_, by decide,
      by decide⟩, by decide⟩, ?_⟩
  · rw [hpaired]
    exact List.Perm.swap ((te1, (16698:ℚ)/5)) ((te2, (16698:ℚ)/5)) []
  · intro hsub
    have he : (([(te2, (16698:ℚ)/5), (te1, 16698/5)].map Prod.fst).filter
        (fun g => decide (dCheb g.coordinates { lat := 0, lon := 0 } =
          16698/5))) = [te2, te1] := by decide
    rw [he] at hsub
    have heq : [te2, te1] = [te1, te2] := hsub.eq_of_length (by decide)
    exact absurd heq (by decide)

/-- C3 (amended): for every valid radius-search request, every response
the program may produce is sorted in non-decreasing distance from the
center, every returned record lies within the requested radius, and the
length is at most the requested max_results; the order among records at
equal distance is unspecified (SQL order by gives no tie guarantee), so
ties need not follow insertion order. -/
theorem radius_search_ordered (d : Coord → Coord → ℚ)
    (registry : List GeoRecord) (req : NearbyRequest)
    (out : List (GeoRecord × ℚ))
    (h : NearbyHandlerRel d registry req out) :
    (out.map Prod.fst).Pairwise (fun g₁ g₂ =>
      d g₁.coordinates { lat := req.lat, lon := req.lon } ≤
        d g₂.coordinates { lat := req.lat, lon := req.lon }) ∧
    (∀ g ∈ out.map Prod.fst,
      d g.coordinates { lat := req.lat, lon := req.lon } ≤ req.radius_m) ∧
    ((out.length : ℤ) ≤ req.max_results) := by
  obtain ⟨hc, hr, rows, ⟨hm0, sorted, hperm, hsort, hrows⟩, hout⟩ := h
  subst hout
  subst hrows
  have hkey : ∀ x ∈ sorted,
      x.2 = d x.1.coordinates { lat := req.lat, lon := req.lon } ∧
      d x.1.coordinates { lat := req.lat, lon := req.lon } ≤
        req.radius_m := by
    intro x hx
    have hxP := hperm.mem_iff.mp hx
    rcases List.mem_map.mp hxP with ⟨g, hg, rfl⟩
    rcases List.mem_filter.mp hg with ⟨_, hgp⟩
    exact ⟨rfl, of_decide_eq_true hgp⟩
  have hmap : (((sorted.take (min req.max_results 100).toNat).map
      (fun p => (p.1, round2 p.2))).map Prod.fst) =
      (sorted.take (min req.max_results 100).toNat).map Prod.fst := by
    rw [List.map_map]
    rfl
  refine ⟨?_, ?_, ?_⟩
  · rw [hmap, List.pairwise_map]
    have hpT : (sorted.take (min req.max_results 100).toNat).Pairwise
        (fun a b => a.2 ≤ b.2) :=
      List.Pairwise.sublist (List.take_sublist _ _) hsort
    exact hpT.imp_of_mem (fun ha hb hab => by
      rw [(hkey _ (List.mem_of_mem_take ha)).1,
        (hkey _ (List.mem_of_mem_take hb)).1] at hab
      exact hab)
  · intro g hg
    rw [hmap] at hg
    rcases List.mem_map.mp hg with ⟨x, hx, rfl⟩
    exact (hkey x (List.mem_of_mem_take hx)).2
  · have h1 : ((sorted.take (min req.max_results 100).toNat).map
        (fun p => (p.1, round2 p.2))).length ≤
        (min req.max_results 100).toNat := by
      rw [List.length_map, List.length_take]
      exact Nat.min_le_left _ _
    have h2 := Int.ofNat_le.mpr h1
    rw [Int.toNat_of_nonneg hm0] at h2
    exact le_trans h2 (min_le_left _ _)

/-- Registry record 3339.6 m from the origin under dCheb, for the
radius_search_ordered witness. -/
def wr1 : GeoRecord := sampleRecord 31 0 (3/100)

/-- Registry record 6679.2 m from the origin under dCheb (outside the
5000 m witness radius). -/
def wr2 : GeoRecord := sampleRecord 32 0 (6/100)

set_option maxHeartbeats 1000000 in
attribute [local semireducible] Rat.add Rat.mul Rat.sub Rat.inv in
/-- Concrete evaluation of the nearby-search handler on the witness
registry: the 5000 m search over records at 3339.6 m and 6679.2 m
returns only the closer record (spec scenario 2). -/
theorem wrHandlerEval :
    nearbyHandler dCheb [wr1, wr2]
      { lat := 0, lon := 0, radius_m := 5000, max_results := 20 } =
      .ok [(wr1, 16698/5)] := by decide

/-- Concrete run discharging the hypothesis of radius_search_ordered:
an admissible response of the 5000 m search over a registry holding
records at 3339.6 m and 6679.2 m contains only the closer record (spec
scenario 2), obtained from the deterministic refinement. -/
theorem radius_search_ordered_witness :
    NearbyHandlerRel dCheb [wr1, wr2]
      { lat := 0, lon := 0, radius_m := 5000, max_results := 20 }
      [(wr1, 16698/5)] ∧
    ([(wr1, (16698:ℚ)/5)].map Prod.fst).Pairwise (fun g₁ g₂ =>
      dCheb g₁.coordinates { lat := 0, lon := 0 } ≤
        dCheb g₂.coordinates { lat := 0, lon := 0 }) ∧
    (∀ g ∈ [(wr1, (16698:ℚ)/5)].map Prod.fst,
      dCheb g.coordinates { lat := 0, lon := 0 } ≤ 5000) ∧
    (([(wr1, (16698:ℚ)/5)].length : ℤ) ≤ 20) :=
  have hrel : NearbyHandlerRel dCheb [wr1, wr2]
      { lat := 0, lon := 0, radius_m := 5000, max_results := 20 }
      [(wr1, 16698/5)] :=
    nearbyHandler_refines dCheb [wr1, wr2] _ _ wrHandlerEval
  ⟨hrel,
    (radius_search_ordered dCheb [wr1, wr2] _ _ hrel).1,
    (radius_search_ordered dCheb [wr1, wr2] _ _ hrel).2.1,
    (radius_search_ordered dCheb [wr1, wr2] _ _ hrel).2.2⟩

end ClaimTheorems

end GeregeMap
